import Mathlib

/-!
Verification of the paperwork generation services (loadsheet and timesheet
Excel template population) against their natural language specification.

Embedding conventions:
* Python `datetime` values are modelled by their proleptic Gregorian ordinal
  (`datetime.toordinal`), an integer.  Ordinal 1 is 0001-01-01, a Monday, so
  `date.weekday()` (Monday = 0 .. Sunday = 6) is `(ordinal - 1) % 7`.
* Python floats are modelled as exact decimal numbers (an integer mantissa
  with a decimal exponent); the timesheet code only ever sums decimal
  literals parsed from strings, where this abstraction is exact for the
  quantities the specification talks about.
* Python string methods `upper`, `lower` and `strip` are modelled by
  structurally recursive functions on the character list (`pyUpper`,
  `pyLower`, `pyStrip`), which agree with them on ASCII text.
* Worksheet mutation is modelled as a trace of cell writes, in program order.
  A timesheet write targets a column letter and a row number (the source
  builds coordinates like `f"C{row}"`); a loadsheet write targets a literal
  coordinate string taken from `CAR_CELL_MAP` and friends.
* File system and subprocess activity of the loadsheet generator is modelled
  as a trace of effects, so that claims about "no I/O before validation" and
  about determinism can be stated.
-/

/-! ## Date model (Python `datetime.date` ordinals) -/

/-- Python `date.weekday()`: Monday = 0 .. Sunday = 6, computed from the
proleptic Gregorian ordinal (ordinal 1 = 0001-01-01 is a Monday). -/
def pyWeekday (d : ℤ) : ℤ := (d - 1) % 7

/-- `helpers.get_week_end_from_date`: `date + timedelta(days=6 - date.weekday())`. -/
def get_week_end_from_date (d : ℤ) : ℤ := d + (6 - pyWeekday d)

/-- Gregorian leap year test (as in CPython `datetime`). -/
def isLeap (y : ℤ) : Bool := y % 4 = 0 && (y % 100 ≠ 0 || y % 400 = 0)

/-- Days in the years before year `y` (CPython `_days_before_year`). -/
def daysBeforeYear (y : ℤ) : ℤ :=
  365 * (y - 1) + (y - 1) / 4 - (y - 1) / 100 + (y - 1) / 400

/-- Cumulative day counts before each month in a non leap year. -/
def monthOffsets : List ℤ := [0, 31, 59, 90, 120, 151, 181, 212, 243, 273, 304, 334]

/-- Days in year `y` before month `m` (CPython `_days_before_month`). -/
def daysBeforeMonth (y m : ℤ) : ℤ :=
  (monthOffsets.getD (m - 1).toNat 0) + (if 2 < m && isLeap y then 1 else 0)

/-- Proleptic Gregorian ordinal of the date `y-m-d` (CPython `_ymd2ord`). -/
def toOrdinal (y m d : ℤ) : ℤ := daysBeforeYear y + daysBeforeMonth y m + d

/-- Inverse of `toOrdinal`: year, month and day of an ordinal, via the
standard civil-from-days computation (floor divisions on a shifted epoch). -/
def fromOrdinal (n : ℤ) : ℤ × ℤ × ℤ :=
  let z := n + 305
  let era := z.fdiv 146097
  let doe := z - era * 146097
  let yoe := (doe - doe / 1460 + doe / 36524 - doe / 146096) / 365
  let y := yoe + era * 400
  let doy := doe - (365 * yoe + yoe / 4 - yoe / 100)
  let mp := (5 * doy + 2) / 153
  let dd := doy - (153 * mp + 2) / 5 + 1
  let mm := mp + (if mp < 10 then 3 else -9)
  (y + (if mm ≤ 2 then 1 else 0), mm, dd)

/-- Zero padded two digit rendering of a (nonnegative) integer. -/
def pad2 (n : ℤ) : String := if n < 10 then "0" ++ toString n else toString n

/-- Python `strftime("%d/%m/%y")`. -/
def fmtDDMMYY (n : ℤ) : String :=
  let c := fromOrdinal n
  pad2 c.2.2 ++ "/" ++ pad2 c.2.1 ++ "/" ++ pad2 (c.1 % 100)

/-- `helpers.format_folder_date`: `strftime("%d-%m-%y")`. -/
def format_folder_date (n : ℤ) : String :=
  let c := fromOrdinal n
  pad2 c.2.2 ++ "-" ++ pad2 c.2.1 ++ "-" ++ pad2 (c.1 % 100)

/-- English weekday names indexed by Python weekday numbers. -/
def WEEKDAY_NAMES : List String :=
  ["Monday", "Tuesday", "Wednesday", "Thursday", "Friday", "Saturday", "Sunday"]

/-- Python `strftime("%A")`. -/
def weekdayName (n : ℤ) : String := WEEKDAY_NAMES.getD (pyWeekday n).toNat ""

/-- `helpers.format_date_for_cell`: `strftime("%A %d/%m/%y")`. -/
def format_date_for_cell (n : ℤ) : String := weekdayName n ++ " " ++ fmtDDMMYY n

/-! ## Python string primitives -/

/-- Python `str.upper()` on ASCII text. -/
def String.pyUpper (s : String) : String := String.mk (s.data.map Char.toUpper)

/-- Python `str.lower()` on ASCII text. -/
def String.pyLower (s : String) : String := String.mk (s.data.map Char.toLower)

/-- Python `str.strip()`: remove whitespace from both ends. -/
def String.pyStrip (s : String) : String :=
  String.mk (((s.data.dropWhile Char.isWhitespace).reverse.dropWhile Char.isWhitespace).reverse)

/-! ## Filename sanitization (`helpers.sanitize_filename`) -/

/-- Characters kept by the regex `[^A-Za-z0-9-_\.]+`: the replacement applies
to maximal runs of characters outside this set. -/
def allowedChar (c : Char) : Bool := c.isAlpha || c.isDigit || c = '-' || c = '_' || c = '.'

/-- `re.sub(r"[^A-Za-z0-9-_\.]+", "_", ·)` on a character list, written as a
state machine: the flag records whether the previous character belonged to a
disallowed run (whose single replacement underscore is already emitted).
Each maximal run of disallowed characters thus becomes one underscore; the
equivalence with the direct maximal-run formulation is proved below. -/
def collapseRunsAux : Bool → List Char → List Char
  | _, [] => []
  | inRun, c :: rest =>
    if allowedChar c then c :: collapseRunsAux false rest
    else if inRun then collapseRunsAux true rest
    else '_' :: collapseRunsAux true rest

/-- The regex replacement, starting outside any run. -/
def collapseRuns (l : List Char) : List Char := collapseRunsAux false l

/-- Python `str.strip("_.-")` on a character list: trim the given characters
from both ends. -/
def stripChars (l : List Char) (set : List Char) : List Char :=
  ((l.dropWhile (· ∈ set)).reverse.dropWhile (· ∈ set)).reverse

/-- `helpers.sanitize_filename`: strip surrounding whitespace, replace runs of
characters outside `[A-Za-z0-9-_.]` by an underscore, trim leading and
trailing `_`, `.`, `-`, and fall back to `"paperwork"` when empty. -/
def sanitize_filename (s : String) : String :=
  let cleaned := String.mk (stripChars (collapseRuns s.pyStrip.toList) ['_', '.', '-'])
  if cleaned = "" then "paperwork" else cleaned

/-- The collapse step exactly as the specification words it: each maximal
run of characters outside the allowed set is replaced by one underscore (the
whole run is dropped with `dropWhile` and a single underscore emitted). -/
def specCollapse : List Char → List Char
  | [] => []
  | c :: rest =>
    if allowedChar c then c :: specCollapse rest
    else '_' :: specCollapse (rest.dropWhile (fun d => !allowedChar d))
termination_by l => l.length
decreasing_by
  · simp only [List.length_cons]; omega
  · have h : (rest.dropWhile (fun d => !allowedChar d)).length ≤ rest.length :=
      (List.dropWhile_sublist (fun d => !allowedChar d)).length_le
    simp only [List.length_cons]
    omega

/-- The amended claim C6 rendered as a definition: replace each maximal run
of characters outside `[A-Za-z0-9-_.]` with one underscore, trim the
separator characters from both ends, default to `"paperwork"` when nothing
remains. -/
def specSanitize (s : String) : String :=
  let cleaned := String.mk (stripChars (specCollapse s.pyStrip.toList) ['_', '.', '-'])
  if cleaned = "" then "paperwork" else cleaned

/-- The claim C6 exactly as stated (runs of characters that are not
alphanumeric become underscores), for exhibiting the counterexample. -/
def claimAllowedChar (c : Char) : Bool := c.isAlpha || c.isDigit

/-- Run collapsing with the character class the claim states (same state
machine as `collapseRunsAux`, over the claimed character class). -/
def claimCollapseAux : Bool → List Char → List Char
  | _, [] => []
  | inRun, c :: rest =>
    if claimAllowedChar c then c :: claimCollapseAux false rest
    else if inRun then claimCollapseAux true rest
    else '_' :: claimCollapseAux true rest

/-- Sanitization exactly as claim C6 states it. -/
def claimSanitize (s : String) : String :=
  let cleaned := String.mk (stripChars (claimCollapseAux false s.pyStrip.toList) ['_', '.', '-'])
  if cleaned = "" then "paperwork" else cleaned

/-! ## Timesheet data model (`app/schemas.py`, `app/services/timesheet.py`) -/

/-- `schemas.LoadModel` (the `car_count` union field is modelled by the string
the service renders it to with `str(...)`). -/
structure LoadModel where
  customer : String
  car_count : String
  collection : String
  delivery : String
  note : String
deriving DecidableEq

/-- A plain `dict` load entry as the timesheet service probes it: optional
string values for the keys the code reads (`None` valued or absent keys are
both modelled as `none`). -/
structure LoadDict where
  message : Option String := none
  customer : Option String := none
  car_count : Option String := none
  collection : Option String := none
  delivery : Option String := none
  note : Option String := none
  custom_note : Option String := none
deriving DecidableEq

/-- Python truthiness of `load.get("message")`. -/
def LoadDict.hasMessage (d : LoadDict) : Bool := (d.message.getD "") ≠ ""

/-- A member of `DayModel.loads`, of type `Union[LoadModel, dict]`. -/
inductive LoadInput where
  | lm : LoadModel → LoadInput
  | dict : LoadDict → LoadInput
deriving DecidableEq

/-- `schemas.DayModel`. -/
structure DayModel where
  day : String
  start_time : Option String := none
  finish_time : Option String := none
  total_hours : Option String := none
  loads : List LoadInput := []
deriving DecidableEq

/-- `schemas.TimesheetRequest`, after validation: `week_ending` is the parsed
`YYYY-MM-DD` date as an ordinal. -/
structure TimesheetRequest where
  week_ending : ℤ
  driver : String
  fleet_reg : List String
  start_mileage : String := ""
  end_mileage : String := ""
  weekly_total_hours : Option String := none
  days : List DayModel
deriving DecidableEq

/-- One worksheet cell write of the timesheet service: the source addresses
cells as `f"C{row}"`, a column letter plus a row number. -/
structure Write where
  col : String
  row : ℕ
  val : String
deriving DecidableEq

/-- `timesheet.DAY_ORDER`. -/
def DAY_ORDER : List String :=
  ["monday", "tuesday", "wednesday", "thursday", "friday", "saturday", "sunday"]

/-- Row data of one `timesheet.DAY_MAPPINGS` entry. -/
structure DayMapping where
  base_row : ℕ
  time_row : ℕ
deriving DecidableEq

/-- `timesheet.DAY_MAPPINGS.get(name)`. -/
def DAY_MAPPINGS (name : String) : Option DayMapping :=
  if name = "monday" then some ⟨8, 8⟩
  else if name = "tuesday" then some ⟨11, 11⟩
  else if name = "wednesday" then some ⟨14, 14⟩
  else if name = "thursday" then some ⟨17, 17⟩
  else if name = "friday" then some ⟨20, 20⟩
  else if name = "saturday" then some ⟨23, 23⟩
  else if name = "sunday" then some ⟨26, 26⟩
  else none

/-- Position of a string in a list (Python `list.index`, total because the
caller guards membership). -/
def posIn (name : String) : List String → ℕ
  | [] => 0
  | d :: rest => if d = name then 0 else posIn name rest + 1

/-- `timesheet._get_day_date`: `week_end - timedelta(days=6 - index)` where
`index` is the position in `DAY_ORDER`, defaulting to 0. -/
def _get_day_date (week_end : ℤ) (day_name : String) : ℤ :=
  let index : ℤ := if day_name ∈ DAY_ORDER then posIn day_name DAY_ORDER else 0
  week_end - (6 - index)

/-- An exact decimal number `man / 10 ^ exp`, the abstraction used for the
Python floats this service computes (sums of parsed decimal literals). -/
structure Dec where
  man : ℤ
  exp : ℕ
deriving DecidableEq

/-- The rational value of an exact decimal. -/
def Dec.toRat (d : Dec) : ℚ := (d.man : ℚ) / 10 ^ d.exp

/-- Exact addition of decimals (models float addition on the decimal values
the timesheet sums, where it is exact). -/
def Dec.add (a b : Dec) : Dec :=
  let e := max a.exp b.exp
  ⟨a.man * 10 ^ (e - a.exp) + b.man * 10 ^ (e - b.exp), e⟩

/-- Numeric value of a list of digit characters. -/
def digitsVal (cs : List Char) : ℕ :=
  cs.foldl (fun a c => 10 * a + (c.toNat - 48)) 0

/-- Parse a decimal string the way Python `float(...)` does on plain decimal
literals: optional sign, digits with an optional fractional part.  (Exponent,
infinity and nan forms are not modelled; every string the claims mention is
covered.)  Returns `none` where `float(...)` raises `ValueError`. -/
def parseFloat (s : String) : Option Dec :=
  let cs := s.pyStrip.toList
  let core := fun (cs : List Char) (sign : ℤ) =>
    let ip := cs.takeWhile Char.isDigit
    let rest := cs.dropWhile Char.isDigit
    match rest with
    | [] => if ip = [] then none else some (Dec.mk (sign * digitsVal ip) 0)
    | '.' :: rest2 =>
      let fp := rest2.takeWhile Char.isDigit
      let rest3 := rest2.dropWhile Char.isDigit
      if rest3 = [] then
        if ip = [] ∧ fp = [] then none
        else some (Dec.mk (sign * (digitsVal ip * 10 ^ fp.length + digitsVal fp)) fp.length)
      else none
    | _ => none
  match cs with
  | '+' :: rest => core rest 1
  | '-' :: rest => core rest (-1)
  | _ => core cs 1

/-- `timesheet._calculate_total_hours`: sum the parseable `total_hours`
strings, skipping falsy values and `ValueError` cases.  (Float accumulation
is modelled by exact decimal addition, which agrees with it here.) -/
def _calculate_total_hours : List DayModel → Dec
  | [] => ⟨0, 0⟩
  | d :: rest =>
    Dec.add
      (match d.total_hours with
       | none => ⟨0, 0⟩
       | some th =>
         if th = "" then ⟨0, 0⟩
         else
           match parseFloat th.pyStrip with
           | some v => v
           | none => ⟨0, 0⟩)
      (_calculate_total_hours rest)

/-- Left pad a string with zeros to the given width. -/
def padZeros (s : String) (k : ℕ) : String :=
  if k ≤ s.length then s else String.mk (List.replicate (k - s.length) '0') ++ s

/-- Remove trailing decimal zeros: divide the mantissa by 10 while the
exponent is positive and the mantissa is a multiple of 10. -/
def decNormAux : ℤ → ℕ → ℤ × ℕ
  | m, 0 => (m, 0)
  | m, e + 1 => if m % 10 = 0 then decNormAux (m / 10) e else (m, e + 1)

/-- Python `str(...)` of a float holding an exact decimal value: minimal
digits, always at least one fractional digit (`str(16.0) = "16.0"`). -/
def pyFloatStr (d : Dec) : String :=
  let sign := if d.man < 0 then "-" else ""
  let m := (if d.man < 0 then -d.man else d.man).toNat
  let p := decNormAux m d.exp
  let a := p.1.toNat
  match p.2 with
  | 0 => sign ++ toString a ++ ".0"
  | k => sign ++ toString (a / 10 ^ k) ++ "." ++ padZeros (toString (a % 10 ^ k)) k

/-! ## Timesheet population trace (`timesheet.generate_timesheet`) -/

/-- `timesheet._format_load` applied to a `LoadModel`. -/
def _format_load (l : LoadModel) : LoadModel :=
  { customer := l.customer.pyUpper
    car_count := l.car_count
    collection := l.collection.pyUpper
    delivery := l.delivery.pyUpper
    note := if l.note ≠ "" then l.note.pyUpper else "" }

/-- The load-row record the service builds from a plain dict (lines that read
`str(load.get("customer", "")).upper()` and so on). -/
def dictLoadData (d : LoadDict) : LoadModel :=
  { customer := (d.customer.getD "").pyUpper
    car_count := d.car_count.getD ""
    collection := (d.collection.getD "").pyUpper
    delivery := (d.delivery.getD "").pyUpper
    note :=
      (let n := d.note.getD ""
       if n ≠ "" then n else d.custom_note.getD "").pyUpper }

/-- `timesheet._write_load_row`: cells C..F always, G only for a truthy note. -/
def _write_load_row (row : ℕ) (l : LoadModel) : List Write :=
  [⟨"C", row, l.customer⟩, ⟨"D", row, l.car_count⟩,
   ⟨"E", row, l.collection⟩, ⟨"F", row, l.delivery⟩]
  ++ (if l.note ≠ "" then [⟨"G", row, l.note⟩] else [])

/-- The sick and holiday override on the stripped time strings (source lines
123-127): when either time is, case insensitively, SICK or HOLIDAY, the
marker is the uppercased start time if the start time is non empty, else the
uppercased finish time; both cells receive it and the hours become "0". -/
def sickAdjust (st ft th : String) : String × String × String :=
  if st.pyUpper = "SICK" ∨ st.pyUpper = "HOLIDAY"
      ∨ ft.pyUpper = "SICK" ∨ ft.pyUpper = "HOLIDAY" then
    let marker := if st ≠ "" then st.pyUpper else ft.pyUpper
    (marker, marker, "0")
  else (st, ft, th)

/-- Writes contributed by one of the first three loads of a day at its fixed
row (source lines 134-151). -/
def perLoadFixedWrites (row : ℕ) : LoadInput → List Write
  | .dict d =>
    if d.hasMessage then [⟨"C", row, (d.message.getD "").pyUpper⟩]
    else if d.customer.isSome || d.collection.isSome then
      _write_load_row row (dictLoadData d)
    else []
  | .lm l => _write_load_row row (_format_load l)

/-- Fixed-row writes of a day: the first three loads at consecutive rows. -/
def fixedLoadWritesAux (row : ℕ) : List LoadInput → List Write
  | [] => []
  | ld :: rest => perLoadFixedWrites row ld ++ fixedLoadWritesAux (row + 1) rest

/-- Source lines 133-151: `for load_idx, load in enumerate(loads[:3])`. -/
def fixedLoadWrites (base_row : ℕ) (loads : List LoadInput) : List Write :=
  fixedLoadWritesAux base_row (loads.take 3)

/-- Overflow eligibility (source lines 155-169): a dict with a truthy message
is skipped, a `LoadModel` is formatted, any other dict is coerced. -/
def overflowData : LoadInput → Option LoadModel
  | .dict d => if d.hasMessage then none else some (dictLoadData d)
  | .lm l => some (_format_load l)

/-- Overflow region writes (source lines 171-173): each written load first
receives the owning day date in column B at the current overflow row, then
its load row, and the counter advances. -/
def overflowWrites (dateStr : String) : List LoadModel → ℕ → List Write
  | [], _ => []
  | l :: rest, r =>
    (⟨"B", r, dateStr⟩ :: _write_load_row r l) ++ overflowWrites dateStr rest (r + 1)

/-- The three time cells of a day (source lines 129-131). -/
def timeWrites (time_row : ℕ) (st ft th : String) : List Write :=
  [⟨"H", time_row, st⟩, ⟨"I", time_row, ft⟩, ⟨"J", time_row, th⟩]

/-- One iteration of the day loop (source lines 112-173): returns the writes
and the updated overflow row counter.  Days with an unknown name are skipped. -/
def processDay (week_end : ℤ) (orow : ℕ) (day_data : DayModel) : List Write × ℕ :=
  match DAY_MAPPINGS day_data.day.pyLower with
  | none => ([], orow)
  | some mapping =>
    let adj := sickAdjust (day_data.start_time.getD "").pyStrip
      (day_data.finish_time.getD "").pyStrip (day_data.total_hours.getD "").pyStrip
    let tw := timeWrites mapping.time_row adj.1 adj.2.1 adj.2.2
    let fw := fixedLoadWrites mapping.base_row day_data.loads
    let ods := (day_data.loads.drop 3).filterMap overflowData
    let ow := overflowWrites (fmtDDMMYY (_get_day_date week_end day_data.day.pyLower)) ods orow
    (tw ++ fw ++ ow, orow + ods.length)

/-- The whole day loop, threading the overflow row counter (initialised to 29
by the caller and never reset). -/
def processDays (week_end : ℤ) : ℕ → List DayModel → List Write
  | _, [] => []
  | orow, d :: rest =>
    (processDay week_end orow d).1 ++ processDays week_end (processDay week_end orow d).2 rest

/-- Python `dict.fromkeys` based deduplication: keep first occurrences. -/
def dedupKeepFirst (l : List String) : List String :=
  l.foldl (fun acc x => if x ∈ acc then acc else acc ++ [x]) []

/-- The full cell-write trace of `generate_timesheet` (source lines 94-180):
header cells, the day loop starting with overflow row 29, then the weekly
total cell J29.  The driver name write goes to K3 unless the workbook merges
K3 into a region, in which case it goes to the anchor cell passed as
`k3Anchor` (column letter and row). -/
def generate_timesheet_writes (k3Anchor : Option (String × ℕ))
    (req : TimesheetRequest) : List Write :=
  let week_end := get_week_end_from_date req.week_ending
  let driverTarget := k3Anchor.getD ("K", 3)
  let headers : List Write :=
    [⟨"E", 5, format_date_for_cell week_end⟩,
     ⟨driverTarget.1, driverTarget.2, req.driver.pyUpper⟩,
     ⟨"K", 5, String.intercalate ", " (dedupKeepFirst (req.fleet_reg.map String.pyUpper))⟩,
     ⟨"H", 4, req.start_mileage⟩,
     ⟨"H", 5, req.end_mileage⟩]
  let dayWrites := processDays week_end 29 req.days
  let tv := (req.weekly_total_hours.getD "").pyStrip
  let totalWrite : Write :=
    if tv ≠ "" then ⟨"J", 29, tv⟩
    else ⟨"J", 29, pyFloatStr (_calculate_total_hours req.days)⟩
  headers ++ dayWrites ++ [totalWrite]

/-! ## Loadsheet model (`app/services/loadsheet.py`) -/

/-- `schemas.CarModel`. -/
structure CarModel where
  reg : String
  make_model : String
  offloaded : String := "N"
  docs : String := "N"
  spare_keys : String := "Y"
  car_notes : String := ""
deriving DecidableEq

/-- `schemas.LoadsheetRequest`, after validation: `load_date` is the parsed
`YYYY-MM-DD` date as an ordinal.  The service also reads `include_pdf` from
the request object, so it is part of the model. -/
structure LoadsheetRequest where
  load_date : ℤ
  load_number : String
  collection_point : String
  delivery_point : String
  fleet_reg : String
  load_notes : String := ""
  sig1 : String := "random"
  sig2 : String := "random"
  cars : List CarModel
  include_pdf : Bool := true
deriving DecidableEq

/-- A loadsheet cell write: literal coordinate and value. -/
structure CellWrite where
  cell : String
  val : String
deriving DecidableEq

/-- One slot of `loadsheet.CAR_CELL_MAP`; field order matches the source dict
insertion order (which `mapping.values()` iterates for blanking). -/
structure CarCellMapping where
  make_model : String
  reg : String
  offloaded : String
  docs : String
  spare_keys : String
  notes : String
deriving DecidableEq

/-- `loadsheet.CAR_CELL_MAP`. -/
def CAR_CELL_MAP : List CarCellMapping :=
  [⟨"B11", "B13", "E10", "G10", "I10", "C11"⟩,
   ⟨"B15", "B17", "E14", "G14", "I14", "C15"⟩,
   ⟨"B19", "B21", "E18", "G18", "I18", "C19"⟩,
   ⟨"B23", "B25", "E22", "G22", "I22", "C23"⟩,
   ⟨"B27", "B29", "E26", "G26", "I26", "C27"⟩,
   ⟨"B31", "B33", "E30", "G30", "I30", "C31"⟩,
   ⟨"B35", "B37", "E34", "G34", "I34", "C35"⟩,
   ⟨"B39", "B41", "E38", "G38", "I38", "C39"⟩]

/-- Writes for one car slot (source lines 84-95): a present car writes its
six mapped fields uppercased, an absent one blanks all six cells. -/
def carSlotWrites (cars : List CarModel) (idx : ℕ) (m : CarCellMapping) : List CellWrite :=
  match cars[idx]? with
  | some car =>
    [⟨m.make_model, car.make_model.pyUpper⟩, ⟨m.reg, car.reg.pyUpper⟩,
     ⟨m.offloaded, car.offloaded.pyUpper⟩, ⟨m.docs, car.docs.pyUpper⟩,
     ⟨m.spare_keys, car.spare_keys.pyUpper⟩, ⟨m.notes, car.car_notes.pyUpper⟩]
  | none =>
    [⟨m.make_model, ""⟩, ⟨m.reg, ""⟩, ⟨m.offloaded, ""⟩,
     ⟨m.docs, ""⟩, ⟨m.spare_keys, ""⟩, ⟨m.notes, ""⟩]

/-- All car slot writes, in slot order. -/
def allCarSlotWrites (cars : List CarModel) : List CellWrite :=
  CAR_CELL_MAP.enum.flatMap fun p => carSlotWrites cars p.1 p.2

/-- The three textual parts of `loadsheet._generate_load_summary`. -/
def _generate_load_summary_parts (cars : List CarModel) : List String :=
  let not_offloaded := cars.countP (fun car => car.offloaded.pyUpper != "Y")
  let with_docs := cars.countP (fun car => car.docs.pyUpper == "Y")
  let with_spare := cars.countP (fun car => car.spare_keys.pyUpper == "Y")
  [toString not_offloaded ++ " CARS LOADED",
   if with_docs ≠ 0 then
     toString with_docs ++ " CARS HAVE DOCUMENTS AND HAVE BEEN PLACED ON THE PASSENGER SEAT"
   else "0 CARS HAVE DOCUMENTS",
   toString with_spare ++ " CARS HAVE SPARE KEYS"]

/-- `loadsheet._generate_load_summary`. -/
def _generate_load_summary (cars : List CarModel) : String :=
  String.intercalate ", " (_generate_load_summary_parts cars)

/-- The combined notes block written to C39 (source lines 97-105). -/
def notesBlock (req : LoadsheetRequest) : String :=
  (String.intercalate "\n"
    ([_generate_load_summary req.cars]
      ++ (if req.load_notes.pyStrip ≠ "" then [req.load_notes.pyStrip] else [])
      ++ req.cars.filterMap (fun car =>
            if car.car_notes.pyStrip ≠ "" then some car.car_notes.pyUpper else none))).pyUpper

/-- Observable actions of `generate_loadsheet`, in program order. -/
inductive Effect where
  | ensureFolder : String → Effect
  | openWorkbook : String → Effect
  | cellWrite : CellWrite → Effect
  | addImage : String → String → Effect
  | saveWorkbook : String → Effect
  | convertPdf : String → Effect
deriving DecidableEq

/-- Failures `generate_loadsheet` raises before touching anything. -/
inductive GenError where
  | templateNotFound : String → GenError
  | validation : String → GenError
deriving DecidableEq

/-- `schemas.GenerateResponse`. -/
structure GenerateResponse where
  excel_path : String
  pdf_path : Option String
  message : String
  week_folder : String
deriving DecidableEq

/-- The parts of the runtime environment the loadsheet service observes:
template presence, the filtered image candidates of the two signature
directories, existence of literally requested signature paths, the outcome of
the external PDF conversion and the configured output directory. -/
structure LoadsheetEnv where
  templateExists : Bool
  outputDir : String
  sig1Candidates : List String
  sig2Candidates : List String
  pathExists : String → Bool
  pdfConvert : String → Option String

/-- `helpers._random_signature`: a uniformly random pick from the candidate
list, made explicit by a seed (`random.choice` draws from hidden RNG state). -/
def _random_signature (seed : ℕ) (candidates : List String) : Option String :=
  if candidates.isEmpty then none else candidates[seed % candidates.length]?

/-- `helpers.select_signature`. -/
def select_signature (seed : ℕ) (requested : String) (candidates : List String)
    (pathExists : String → Bool) : Option String :=
  if requested = "random" then _random_signature seed candidates
  else if requested ≠ "" ∧ pathExists requested then some requested
  else none

/-- `helpers.add_signature`: embeds the image only when a path was resolved
and still exists. -/
def add_signature (sig : Option String) (anchor : String)
    (pathExists : String → Bool) : List Effect :=
  match sig with
  | none => []
  | some p => if pathExists p then [.addImage p anchor] else []

/-- The full `generate_loadsheet` (source lines 56-131): returns the effect
trace produced up to the point of return or failure, and either the raised
error or the response.  The two seeds stand for the hidden RNG draws of the
two `random.choice` calls. -/
def generate_loadsheet (env : LoadsheetEnv) (seeds : ℕ × ℕ)
    (req : LoadsheetRequest) : List Effect × Except GenError GenerateResponse :=
  if !env.templateExists then
    ([], .error (.templateNotFound "Loadsheet template not found"))
  else if CAR_CELL_MAP.length < req.cars.length then
    ([], .error (.validation
      ("Loadsheet supports up to " ++ toString CAR_CELL_MAP.length ++ " cars per template")))
  else
    let week_end := get_week_end_from_date req.load_date
    let folderName := format_folder_date week_end
    let folder := env.outputDir ++ "/" ++ folderName
    let safe_collection := sanitize_filename req.collection_point
    let filename := req.load_number ++ "_" ++ safe_collection
    let excel_path := folder ++ "/" ++ filename ++ ".xlsx"
    let headerWrites : List CellWrite :=
      [⟨"C6", format_date_for_cell req.load_date⟩,
       ⟨"G6", req.load_number⟩,
       ⟨"C7", req.fleet_reg.pyUpper⟩,
       ⟨"B9", req.collection_point.pyUpper⟩,
       ⟨"F9", req.delivery_point.pyUpper⟩,
       ⟨"C46", format_date_for_cell req.load_date⟩,
       ⟨"H46", format_date_for_cell req.load_date⟩]
    let sig1 := select_signature seeds.1 req.sig1 env.sig1Candidates env.pathExists
    let sig2 := select_signature seeds.2 req.sig2 env.sig2Candidates env.pathExists
    let pdf := if req.include_pdf then env.pdfConvert excel_path else none
    let message :=
      if req.include_pdf then
        match pdf with
        | some _ => "Loadsheet generated successfully"
        | none => "Loadsheet generated (Excel only - PDF conversion failed or disabled)"
      else "Loadsheet generated (Excel only - PDF conversion skipped per request)"
    ([.ensureFolder folder, .openWorkbook "loadsheet.xlsx"]
       ++ (headerWrites ++ allCarSlotWrites req.cars
            ++ ([⟨"C39", notesBlock req⟩] : List CellWrite)).map .cellWrite
       ++ add_signature sig1 "C42" env.pathExists
       ++ add_signature sig2 "H42" env.pathExists
       ++ [.saveWorkbook excel_path]
       ++ (if req.include_pdf then [.convertPdf excel_path] else []),
     .ok { excel_path := excel_path, pdf_path := pdf, message := message,
           week_folder := folderName })

/-! ## Observations used by the overflow claims -/

/-- The writes of a trace that target column B (the overflow date column:
no other write of the day loop or of the header targets column B). -/
def colBWrites (ws : List Write) : List Write := ws.filter (fun w => w.col = "B")

/-- The owning day name (lowercased), in input order, of every load that the
day loop sends to the overflow region: for each known day, one entry per
load beyond the third that is not a message-carrying dict. -/
def overflowOwners (days : List DayModel) : List String :=
  days.flatMap fun d =>
    match DAY_MAPPINGS d.day.pyLower with
    | none => []
    | some _ => ((d.loads.drop 3).filterMap overflowData).map (fun _ => d.day.pyLower)

/-- The overflow date writes claim C2 predicts: one write per overflow load,
at consecutive rows from the given starting row, each carrying the owning
day calendar date formatted DD/MM/YY. -/
def expectedOverflowB (week_end : ℤ) : ℕ → List String → List Write
  | _, [] => []
  | r, name :: rest =>
    ⟨"B", r, fmtDDMMYY (_get_day_date week_end name)⟩ :: expectedOverflowB week_end (r + 1) rest

/-! ## Claim theorems -/

deriving instance DecidableEq for Except

/-- Claim C1: for every date D, `get_week_end_from_date` returns the smallest
date at or after D whose weekday is Sunday (a Sunday input maps to itself,
since it is the smallest such date), and the function is idempotent. -/
theorem C1_week_end_smallest_sunday_idempotent :
    ∀ d : ℤ,
      pyWeekday (get_week_end_from_date d) = 6
      ∧ d ≤ get_week_end_from_date d
      ∧ (∀ e : ℤ, d ≤ e → pyWeekday e = 6 → get_week_end_from_date d ≤ e)
      ∧ get_week_end_from_date (get_week_end_from_date d) = get_week_end_from_date d := by
  intro d
  simp only [get_week_end_from_date, pyWeekday]
  refine ⟨by omega, by omega, ?_, by omega⟩
  intro e h1 h2
  omega

/-- Witness for C1 at 2025-05-17 (a Saturday): the week end is 2025-05-18,
a Sunday, and it is at or before the Sunday 2025-05-18. -/
theorem C1_week_end_smallest_sunday_idempotent_witness :
    pyWeekday (get_week_end_from_date (toOrdinal 2025 5 17)) = 6
    ∧ get_week_end_from_date (toOrdinal 2025 5 17) = toOrdinal 2025 5 18
    ∧ get_week_end_from_date (toOrdinal 2025 5 17) ≤ toOrdinal 2025 5 18 :=
  ⟨(C1_week_end_smallest_sunday_idempotent (toOrdinal 2025 5 17)).1,
   by decide,
   (C1_week_end_smallest_sunday_idempotent (toOrdinal 2025 5 17)).2.2.1
     (toOrdinal 2025 5 18) (by decide) (by decide)⟩

/-- Claim C6, counterexample: the sanitizer keeps `.` (and `-`, `_`), which
are not alphanumeric, so the claimed rule (every run of non-alphanumeric
characters becomes an underscore) predicts `"a_b"` for input `"a.b"` while
the code returns `"a.b"`. -/
theorem C6_counterexample :
    sanitize_filename "a.b" = "a.b"
    ∧ claimSanitize "a.b" = "a_b"
    ∧ ("a.b" : String) ≠ "a_b" := by decide

/-- In run state, the state machine ignores the remainder of the current
disallowed run: it behaves like the fresh machine on the list with the run
stripped. -/
theorem collapseRunsAux_true_eq (l : List Char) :
    collapseRunsAux true l = collapseRunsAux false (l.dropWhile (fun d => !allowedChar d)) := by
  induction l with
  | nil => rfl
  | cons c rest ih =>
    by_cases h : allowedChar c
    · simp [collapseRunsAux, h, List.dropWhile_cons]
    · simp [collapseRunsAux, h, List.dropWhile_cons, ih]

/-- The state machine implementation of the regex replacement agrees with
the direct maximal-run description. -/
theorem collapseRuns_eq_specCollapse (l : List Char) : collapseRuns l = specCollapse l := by
  have H : ∀ n (l : List Char), l.length ≤ n → collapseRunsAux false l = specCollapse l := by
    intro n
    induction n with
    | zero =>
      intro l hl
      cases l with
      | nil => simp [collapseRunsAux, specCollapse]
      | cons c rest => simp at hl
    | succ n ih =>
      intro l hl
      cases l with
      | nil => simp [collapseRunsAux, specCollapse]
      | cons c rest =>
        by_cases h : allowedChar c
        · simp only [collapseRunsAux, specCollapse, h, if_true]
          have : rest.length ≤ n := by simp at hl; omega
          rw [ih rest this]
        · simp only [collapseRunsAux, specCollapse, h, if_false, Bool.false_eq_true]
          rw [collapseRunsAux_true_eq]
          have hle : (rest.dropWhile (fun d => !allowedChar d)).length ≤ n := by
            have hsl : (rest.dropWhile (fun d => !allowedChar d)).length ≤ rest.length :=
              (List.dropWhile_sublist (fun d => !allowedChar d)).length_le
            simp at hl
            omega
          rw [ih _ hle]
  exact H l.length l le_rfl

/-- Claim C6, amended: sanitization replaces each run of characters outside
the class A-Z, a-z, 0-9, hyphen, underscore, dot with a single underscore
(after stripping surrounding whitespace), trims leading and trailing
separator characters, falls back to "paperwork" when empty; sanitizing
"WBAC Maidstone!!" yields "WBAC_Maidstone". -/
theorem C6_sanitize_amended :
    (∀ s : String, sanitize_filename s = specSanitize s)
    ∧ sanitize_filename "WBAC Maidstone!!" = "WBAC_Maidstone" := by
  constructor
  · intro s
    simp only [sanitize_filename, specSanitize, collapseRuns_eq_specCollapse]
  · decide

/-- Claim C9: the first component of the loadsheet summary counts the cars
whose offloaded flag is not Y (case insensitively), not the car entries; in
the concrete example one of two cars is offloaded (flag "y") and the summary
opens with "1 CARS LOADED" although the request holds 2 cars. -/
theorem C9_summary_counts_loaded_cars :
    (∀ cars : List CarModel,
       (_generate_load_summary_parts cars).head? =
         some (toString (cars.countP (fun car => car.offloaded.pyUpper != "Y"))
           ++ " CARS LOADED"))
    ∧ _generate_load_summary
        [{ reg := "A", make_model := "M", offloaded := "y", docs := "N",
           spare_keys := "N", car_notes := "" },
         { reg := "B", make_model := "M", offloaded := "N", docs := "N",
           spare_keys := "Y", car_notes := "" }] =
        "1 CARS LOADED, 0 CARS HAVE DOCUMENTS, 1 CARS HAVE SPARE KEYS"
    ∧ ([{ reg := "A", make_model := "M", offloaded := "y", docs := "N",
          spare_keys := "N", car_notes := "" },
        { reg := "B", make_model := "M", offloaded := "N", docs := "N",
          spare_keys := "Y", car_notes := "" }] : List CarModel).length = 2 := by
  refine ⟨fun cars => rfl, by decide, by decide⟩

/-- Claim C4: with the template present and more than 8 cars, generation
raises the validation error with an empty effect trace: no folder creation,
no workbook open, no cell write, no save, no conversion happened. -/
theorem C4_car_cap_validation_before_io :
    ∀ (env : LoadsheetEnv) (seeds : ℕ × ℕ) (req : LoadsheetRequest),
      env.templateExists = true → CAR_CELL_MAP.length < req.cars.length →
      generate_loadsheet env seeds req =
        ([], .error (.validation "Loadsheet supports up to 8 cars per template")) := by
  intro env seeds req h1 h2
  unfold generate_loadsheet
  rw [h1]
  simp only [Bool.not_true, Bool.false_eq_true, if_false, if_pos h2]
  rfl

/-- Witness for C4: a request with 9 cars against an existing template. -/
theorem C4_car_cap_validation_before_io_witness :
    CAR_CELL_MAP.length <
      (List.replicate 9
        ({ reg := "R", make_model := "M", offloaded := "N", docs := "N",
           spare_keys := "Y", car_notes := "" } : CarModel)).length
    ∧ generate_loadsheet
        ⟨true, "out", [], [], fun _ => false, fun _ => none⟩ (0, 0)
        { load_date := toOrdinal 2025 5 17, load_number := "S123",
          collection_point := "WBAC Maidstone", delivery_point := "Yard",
          fleet_reg := "Y6BTT", load_notes := "", sig1 := "random",
          sig2 := "random",
          cars := List.replicate 9
            { reg := "R", make_model := "M", offloaded := "N", docs := "N",
              spare_keys := "Y", car_notes := "" },
          include_pdf := false } =
        ([], .error (.validation "Loadsheet supports up to 8 cars per template")) :=
  ⟨by decide,
   C4_car_cap_validation_before_io _ _ _ rfl (by decide)⟩

/-- Claim C7, counterexample: a car slot maps six cells (make and model,
registration, offloaded flag, documents flag, spare keys flag, notes), not
five; both the populated and the blanked slot touch six cells. -/
theorem C7_counterexample :
    CAR_CELL_MAP[0]? = some ⟨"B11", "B13", "E10", "G10", "I10", "C11"⟩
    ∧ (carSlotWrites
        [{ reg := "ab12cde", make_model := "ford focus", offloaded := "n",
           docs := "y", spare_keys := "y", car_notes := "clean" }]
        0 ⟨"B11", "B13", "E10", "G10", "I10", "C11"⟩).length = 6
    ∧ (carSlotWrites ([] : List CarModel)
        0 ⟨"B11", "B13", "E10", "G10", "I10", "C11"⟩).length = 6
    ∧ (6 : ℕ) ≠ 5 := by decide

/-- Every car slot touches exactly six cells. -/
theorem carSlotWrites_length (cars : List CarModel) (idx : ℕ) (m : CarCellMapping) :
    (carSlotWrites cars idx m).length = 6 := by
  unfold carSlotWrites
  cases cars[idx]? <;> rfl

/-- Claim C7, amended: for each car slot index, a present car writes its six
mapped fields uppercased to the six mapped cells, an absent one blanks the
same six cells; over the eight slots of the map this touches 48 cells. -/
theorem C7_car_slots_amended :
    ∀ (cars : List CarModel) (idx : ℕ) (m : CarCellMapping),
      (∀ car, cars[idx]? = some car →
        carSlotWrites cars idx m =
          [⟨m.make_model, car.make_model.pyUpper⟩, ⟨m.reg, car.reg.pyUpper⟩,
           ⟨m.offloaded, car.offloaded.pyUpper⟩, ⟨m.docs, car.docs.pyUpper⟩,
           ⟨m.spare_keys, car.spare_keys.pyUpper⟩, ⟨m.notes, car.car_notes.pyUpper⟩])
      ∧ (cars[idx]? = none →
          carSlotWrites cars idx m =
            [⟨m.make_model, ""⟩, ⟨m.reg, ""⟩, ⟨m.offloaded, ""⟩,
             ⟨m.docs, ""⟩, ⟨m.spare_keys, ""⟩, ⟨m.notes, ""⟩])
      ∧ (allCarSlotWrites cars).length = 48 := by
  intro cars idx m
  refine ⟨?_, ?_, ?_⟩
  · intro car h
    unfold carSlotWrites
    rw [h]
  · intro h
    unfold carSlotWrites
    rw [h]
  · simp [allCarSlotWrites, CAR_CELL_MAP, List.enum, List.enumFrom, carSlotWrites_length]

/-- Witness for C7 at a one-car request: slot 0 receives the six uppercased
fields, slot 1 is blanked. -/
theorem C7_car_slots_amended_witness :
    carSlotWrites
      [{ reg := "ab12cde", make_model := "ford focus", offloaded := "n",
         docs := "y", spare_keys := "y", car_notes := "clean" }]
      0 ⟨"B11", "B13", "E10", "G10", "I10", "C11"⟩ =
      [⟨"B11", "FORD FOCUS"⟩, ⟨"B13", "AB12CDE"⟩, ⟨"E10", "N"⟩,
       ⟨"G10", "Y"⟩, ⟨"I10", "Y"⟩, ⟨"C11", "CLEAN"⟩]
    ∧ carSlotWrites
      [{ reg := "ab12cde", make_model := "ford focus", offloaded := "n",
         docs := "y", spare_keys := "y", car_notes := "clean" }]
      1 ⟨"B15", "B17", "E14", "G14", "I14", "C15"⟩ =
      [⟨"B15", ""⟩, ⟨"B17", ""⟩, ⟨"E14", ""⟩, ⟨"G14", ""⟩, ⟨"I14", ""⟩, ⟨"C15", ""⟩] := by
  constructor
  · rw [(C7_car_slots_amended _ 0 _).1 _ rfl]
    decide
  · rw [(C7_car_slots_amended _ 1 _).2.1 rfl]

/-- Claim C8, counterexample: with two images in the signature directory and
a request asking for a random signature, two runs that draw differently
embed different images, so the full result (effect trace included) differs
although request, template and settings are identical. -/
theorem C8_counterexample :
    generate_loadsheet
        ⟨true, "out", ["a.png", "b.png"], [], fun _ => true, fun _ => none⟩ (0, 0)
        { load_date := toOrdinal 2025 5 17, load_number := "S123",
          collection_point := "WBAC Maidstone", delivery_point := "Yard",
          fleet_reg := "Y6BTT", load_notes := "", sig1 := "random",
          sig2 := "", cars := [], include_pdf := false } ≠
      generate_loadsheet
        ⟨true, "out", ["a.png", "b.png"], [], fun _ => true, fun _ => none⟩ (1, 0)
        { load_date := toOrdinal 2025 5 17, load_number := "S123",
          collection_point := "WBAC Maidstone", delivery_point := "Yard",
          fleet_reg := "Y6BTT", load_notes := "", sig1 := "random",
          sig2 := "", cars := [], include_pdf := false } := by decide

/-- Claim C8, amended: the returned response (saved workbook path, pdf path,
message, week folder) is independent of the random signature draws, and the
whole run, effect trace included, is identical across runs whenever neither
signature is requested as "random". -/
theorem C8_deterministic_amended :
    ∀ (env : LoadsheetEnv) (req : LoadsheetRequest) (s1 s2 : ℕ × ℕ),
      (generate_loadsheet env s1 req).2 = (generate_loadsheet env s2 req).2
      ∧ (req.sig1 ≠ "random" → req.sig2 ≠ "random" →
          generate_loadsheet env s1 req = generate_loadsheet env s2 req) := by
  intro env req s1 s2
  constructor
  · unfold generate_loadsheet
    by_cases h1 : env.templateExists
    · by_cases h2 : CAR_CELL_MAP.length < req.cars.length
      · simp [h1, h2]
      · simp [h1, h2]
    · simp [h1]
  · intro hn1 hn2
    unfold generate_loadsheet
    by_cases h1 : env.templateExists
    · by_cases h2 : CAR_CELL_MAP.length < req.cars.length
      · simp [h1, h2]
      · simp [h1, h2, select_signature, hn1, hn2]
    · simp [h1]

/-- Witness for C8: with fixed (non random) signature requests, two runs with
different draws coincide completely; with a "random" request the responses
still coincide. -/
theorem C8_deterministic_amended_witness :
    (generate_loadsheet
        ⟨true, "out", ["a.png", "b.png"], [], fun _ => true, fun _ => none⟩ (0, 0)
        { load_date := toOrdinal 2025 5 17, load_number := "S123",
          collection_point := "WBAC Maidstone", delivery_point := "Yard",
          fleet_reg := "Y6BTT", load_notes := "", sig1 := "s.png",
          sig2 := "", cars := [], include_pdf := false } =
      generate_loadsheet
        ⟨true, "out", ["a.png", "b.png"], [], fun _ => true, fun _ => none⟩ (5, 7)
        { load_date := toOrdinal 2025 5 17, load_number := "S123",
          collection_point := "WBAC Maidstone", delivery_point := "Yard",
          fleet_reg := "Y6BTT", load_notes := "", sig1 := "s.png",
          sig2 := "", cars := [], include_pdf := false })
    ∧ (generate_loadsheet
        ⟨true, "out", ["a.png", "b.png"], [], fun _ => true, fun _ => none⟩ (0, 0)
        { load_date := toOrdinal 2025 5 17, load_number := "S123",
          collection_point := "WBAC Maidstone", delivery_point := "Yard",
          fleet_reg := "Y6BTT", load_notes := "", sig1 := "random",
          sig2 := "", cars := [], include_pdf := false }).2 =
      (generate_loadsheet
        ⟨true, "out", ["a.png", "b.png"], [], fun _ => true, fun _ => none⟩ (1, 0)
        { load_date := toOrdinal 2025 5 17, load_number := "S123",
          collection_point := "WBAC Maidstone", delivery_point := "Yard",
          fleet_reg := "Y6BTT", load_notes := "", sig1 := "random",
          sig2 := "", cars := [], include_pdf := false }).2 :=
  ⟨(C8_deterministic_amended _ _ (0, 0) (5, 7)).2 (by decide) (by decide),
   (C8_deterministic_amended _ _ (0, 0) (1, 0)).1⟩

/-- Claim C3, evaluation at the failing input: for a day with a normal start
time "08:00" and finish time "SICK", the override branch fires (finish time
matches the marker set) but the code takes the uppercased START time as the
marker because the start time is non empty; both cells receive "08:00"
instead of "SICK", and the hours are still forced to "0".  This contradicts
the documented behaviour (both cells receive the SICK or HOLIDAY marker). -/
theorem C3_sick_override_code_evaluation :
    sickAdjust "08:00" "SICK" "8" = ("08:00", "08:00", "0")
    ∧ processDays (toOrdinal 2025 5 18) 29
        [{ day := "Monday", start_time := some "08:00", finish_time := some "SICK",
           total_hours := some "8", loads := [] }] =
      [⟨"H", 8, "08:00"⟩, ⟨"I", 8, "08:00"⟩, ⟨"J", 8, "0"⟩]
    ∧ sickAdjust "SICK" "17:00" "8" = ("SICK", "SICK", "0") := by decide

/-- Adding the zero decimal on the left is the identity. -/
theorem dec_zero_add (x : Dec) : Dec.add ⟨0, 0⟩ x = x := by
  unfold Dec.add
  simp

/-- Claim C5, counterexample: a supplied weekly total " 40 " is written
stripped, as "40", not verbatim. -/
theorem C5_counterexample :
    (generate_timesheet_writes none
        { week_ending := toOrdinal 2025 5 18, driver := "Craig",
          fleet_reg := ["Y6BTT"], start_mileage := "1", end_mileage := "2",
          weekly_total_hours := some " 40 ", days := [] }).getLast? =
      some ⟨"J", 29, "40"⟩
    ∧ (" 40 " : String) ≠ "40" := by decide

/-- Claim C5, amended: the weekly total cell J29 is the last write of the
document; it receives the supplied value stripped of surrounding whitespace
when that stripped value is non empty, else the decimal sum of the day
totals, where a day whose total fails to parse is skipped (contributing
nothing rather than resetting the sum); for days "9", "7.5", "bad", "0" the
sum is 16.5 and the cell reads "16.5". -/
theorem C5_weekly_total_amended :
    (∀ (a : Option (String × ℕ)) (req : TimesheetRequest),
       (generate_timesheet_writes a req).getLast? =
         some ⟨"J", 29,
           if (req.weekly_total_hours.getD "").pyStrip ≠ ""
           then (req.weekly_total_hours.getD "").pyStrip
           else pyFloatStr (_calculate_total_hours req.days)⟩)
    ∧ (∀ (d : DayModel) (rest : List DayModel),
        parseFloat (d.total_hours.getD "").pyStrip = none →
        _calculate_total_hours (d :: rest) = _calculate_total_hours rest)
    ∧ _calculate_total_hours
        [{ day := "Monday", start_time := none, finish_time := none,
           total_hours := some "9", loads := [] },
         { day := "Tuesday", start_time := none, finish_time := none,
           total_hours := some "7.5", loads := [] },
         { day := "Wednesday", start_time := none, finish_time := none,
           total_hours := some "bad", loads := [] },
         { day := "Thursday", start_time := none, finish_time := none,
           total_hours := some "0", loads := [] }] = ⟨165, 1⟩
    ∧ (Dec.mk 165 1).toRat = 33 / 2
    ∧ pyFloatStr ⟨165, 1⟩ = "16.5" := by
  refine ⟨?_, ?_, by decide, by norm_num [Dec.toRat], by decide⟩
  · intro a req
    unfold generate_timesheet_writes
    by_cases h : (req.weekly_total_hours.getD "").pyStrip = ""
    · rw [List.getLast?_append_cons]
      simp [h]
    · rw [List.getLast?_append_cons]
      simp [h]
  · intro d rest hp
    cases hth : d.total_hours with
    | none =>
      simp only [_calculate_total_hours, hth]
      exact dec_zero_add _
    | some th =>
      rw [hth] at hp
      simp only [Option.getD] at hp
      by_cases he : th = ""
      · simp only [_calculate_total_hours, hth, he, if_true]
        exact dec_zero_add _
      · simp only [_calculate_total_hours, hth, he, if_false]
        simp [he, hp, dec_zero_add]

/-- Filtering for column B distributes over trace concatenation. -/
theorem colB_append (a b : List Write) : colBWrites (a ++ b) = colBWrites a ++ colBWrites b := by
  simp [colBWrites]

/-- A load row write never targets column B. -/
theorem colB_write_load_row (r : ℕ) (l : LoadModel) :
    colBWrites (_write_load_row r l) = [] := by
  by_cases h : l.note = "" <;> simp [colBWrites, _write_load_row, h]

/-- The time cells of a day never target column B. -/
theorem colB_timeWrites (tr : ℕ) (st ft th : String) :
    colBWrites (timeWrites tr st ft th) = [] := rfl

/-- A fixed-row load write never targets column B. -/
theorem colB_perLoadFixed (row : ℕ) (ld : LoadInput) :
    colBWrites (perLoadFixedWrites row ld) = [] := by
  cases ld with
  | lm l => exact colB_write_load_row _ _
  | dict d =>
    unfold perLoadFixedWrites
    by_cases h1 : d.hasMessage
    · simp [h1, colBWrites]
    · by_cases h2 : d.customer.isSome || d.collection.isSome
      · simp [h1, h2, colB_write_load_row]
      · simp [h1, h2, colBWrites]

/-- The fixed rows of a day never write to column B. -/
theorem colB_fixedAux : ∀ (loads : List LoadInput) (row : ℕ),
    colBWrites (fixedLoadWritesAux row loads) = [] := by
  intro loads
  induction loads with
  | nil => intro row; rfl
  | cons ld rest ih =>
    intro row
    simp only [fixedLoadWritesAux, colB_append, colB_perLoadFixed, ih]
    rfl

/-- The fixed-row region of a day never writes to column B. -/
theorem colB_fixedLoadWrites (base : ℕ) (loads : List LoadInput) :
    colBWrites (fixedLoadWrites base loads) = [] :=
  colB_fixedAux _ _

/-- The column B writes of one overflow block are exactly one dated write
per overflow load, at consecutive rows. -/
theorem colB_overflow (we : ℤ) (name : String) :
    ∀ (ds : List LoadModel) (r : ℕ),
      colBWrites (overflowWrites (fmtDDMMYY (_get_day_date we name)) ds r)
        = expectedOverflowB we r (ds.map fun _ => name) := by
  intro ds
  induction ds with
  | nil => intro r; rfl
  | cons l rest ih =>
    intro r
    simp only [overflowWrites, List.map_cons, expectedOverflowB, List.cons_append]
    show ⟨"B", r, fmtDDMMYY (_get_day_date we name)⟩ ::
        colBWrites (_write_load_row r l
          ++ overflowWrites (fmtDDMMYY (_get_day_date we name)) rest (r + 1)) = _
    rw [colB_append, colB_write_load_row, ih]
    rfl

/-- Shifting the starting row across a split owner list. -/
theorem expectedOverflowB_append (we : ℤ) :
    ∀ (l1 l2 : List String) (r : ℕ),
      expectedOverflowB we r (l1 ++ l2)
        = expectedOverflowB we r l1 ++ expectedOverflowB we (r + l1.length) l2 := by
  intro l1
  induction l1 with
  | nil => intro l2 r; rfl
  | cons x xs ih =>
    intro l2 r
    simp only [List.cons_append, expectedOverflowB, List.length_cons, List.append_eq]
    rw [ih]
    have h : r + 1 + xs.length = r + (xs.length + 1) := by omega
    rw [h]

/-- Dropping a day with an unknown name leaves the owner list unchanged. -/
theorem overflowOwners_cons_none (d : DayModel) (rest : List DayModel)
    (hm : DAY_MAPPINGS d.day.pyLower = none) :
    overflowOwners (d :: rest) = overflowOwners rest := by
  simp [overflowOwners, List.flatMap_cons, hm]

/-- A known day contributes one owner entry per overflow-eligible load. -/
theorem overflowOwners_cons_some (d : DayModel) (rest : List DayModel) (m : DayMapping)
    (hm : DAY_MAPPINGS d.day.pyLower = some m) :
    overflowOwners (d :: rest) =
      ((d.loads.drop 3).filterMap overflowData).map (fun _ => d.day.pyLower)
        ++ overflowOwners rest := by
  simp [overflowOwners, List.flatMap_cons, hm]

/-- The column B writes of the whole day loop, for any starting counter. -/
theorem colB_processDays (we : ℤ) :
    ∀ (days : List DayModel) (r : ℕ),
      colBWrites (processDays we r days) = expectedOverflowB we r (overflowOwners days) := by
  intro days
  induction days with
  | nil => intro r; rfl
  | cons d rest ih =>
    intro r
    simp only [processDays, colB_append]
    unfold processDay
    cases hm : DAY_MAPPINGS d.day.pyLower with
    | none =>
      rw [overflowOwners_cons_none d rest hm]
      dsimp only
      show colBWrites [] ++ colBWrites (processDays we r rest) = _
      rw [ih]
      rfl
    | some m =>
      rw [overflowOwners_cons_some d rest m hm, expectedOverflowB_append, List.length_map]
      dsimp only
      rw [colB_append, colB_append, colB_timeWrites, colB_fixedLoadWrites, colB_overflow, ih]
      rfl

/-- Claim C2, counterexample: a Monday with four loads whose fourth is a
message-carrying dict produces no overflow write at all (no write at or
beyond row 29, no column B date write) and leaves the overflow counter at
29, although the day has a load beyond its third. -/
theorem C2_counterexample :
    let cex : DayModel :=
      { day := "Monday", start_time := none, finish_time := none, total_hours := none,
        loads := [.lm ⟨"A", "1", "X", "Y", ""⟩, .lm ⟨"B", "1", "X", "Y", ""⟩,
                  .lm ⟨"C", "1", "X", "Y", ""⟩, .dict { message := some "WAITING" }] }
    cex.loads.length = 4
    ∧ (processDay (toOrdinal 2025 5 18) 29 cex).2 = 29
    ∧ colBWrites (processDay (toOrdinal 2025 5 18) 29 cex).1 = []
    ∧ ((processDay (toOrdinal 2025 5 18) 29 cex).1).filter (fun w => 29 ≤ w.row) = [] := by
  decide

/-- Claim C2, amended: across the whole day loop, the overflow date writes
(the column B writes) are exactly one write per non-message load beyond the
third load of a day, in input day order, at consecutive rows starting at 29
(the counter never resets), each carrying the calendar date of the owning day,
computed as the week-ending date minus (6 - day_index) days with day_index
the position in the canonical Monday-first ordering, formatted DD/MM/YY.
Five plain loads on Monday put three in the fixed rows 8-10 and two in
overflow rows 29 and 30, both dated with the Monday date 12/05/25. -/
theorem C2_overflow_amended :
    (∀ (we : ℤ) (days : List DayModel),
       colBWrites (processDays we 29 days) = expectedOverflowB we 29 (overflowOwners days))
    ∧ (∀ (we : ℤ) (i : ℕ) (name : String), DAY_ORDER[i]? = some name →
        _get_day_date we name = we - (6 - (i : ℤ)))
    ∧ (let mon5 : DayModel :=
        { day := "Monday", start_time := some "07:00", finish_time := some "17:00",
          total_hours := some "9",
          loads := [.lm ⟨"WBAC A", "2", "WBAC", "YARD", ""⟩,
                    .lm ⟨"WBAC B", "2", "WBAC", "YARD", ""⟩,
                    .lm ⟨"WBAC C", "2", "WBAC", "YARD", ""⟩,
                    .lm ⟨"WBAC D", "2", "WBAC", "YARD", ""⟩,
                    .lm ⟨"WBAC E", "2", "WBAC", "YARD", ""⟩] }
       colBWrites (processDays (toOrdinal 2025 5 18) 29 [mon5]) =
         [⟨"B", 29, "12/05/25"⟩, ⟨"B", 30, "12/05/25"⟩]
       ∧ ((processDays (toOrdinal 2025 5 18) 29 [mon5]).filter
            (fun w => w.col = "C" ∧ w.row ≤ 28)).map (fun w => w.row) = [8, 9, 10]
       ∧ fmtDDMMYY (_get_day_date (toOrdinal 2025 5 18) "monday") = "12/05/25") := by
  refine ⟨fun we days => colB_processDays we days 29, ?_, by decide⟩
  intro we i name h
  rcases i with _ | _ | _ | _ | _ | _ | _ | i
  · rw [show DAY_ORDER[0]? = some "monday" from rfl] at h
    injection h with h
    subst h
    have hidx : (if "monday" ∈ DAY_ORDER then ((posIn "monday" DAY_ORDER : ℕ) : ℤ) else 0) = 0 := by
      decide
    simp only [_get_day_date, hidx]
    omega
  · rw [show DAY_ORDER[1]? = some "tuesday" from rfl] at h
    injection h with h
    subst h
    have hidx : (if "tuesday" ∈ DAY_ORDER then ((posIn "tuesday" DAY_ORDER : ℕ) : ℤ) else 0) = 1 := by
      decide
    simp only [_get_day_date, hidx]
    omega
  · rw [show DAY_ORDER[2]? = some "wednesday" from rfl] at h
    injection h with h
    subst h
    have hidx : (if "wednesday" ∈ DAY_ORDER then ((posIn "wednesday" DAY_ORDER : ℕ) : ℤ) else 0) = 2 := by
      decide
    simp only [_get_day_date, hidx]
    omega
  · rw [show DAY_ORDER[3]? = some "thursday" from rfl] at h
    injection h with h
    subst h
    have hidx : (if "thursday" ∈ DAY_ORDER then ((posIn "thursday" DAY_ORDER : ℕ) : ℤ) else 0) = 3 := by
      decide
    simp only [_get_day_date, hidx]
    omega
  · rw [show DAY_ORDER[4]? = some "friday" from rfl] at h
    injection h with h
    subst h
    have hidx : (if "friday" ∈ DAY_ORDER then ((posIn "friday" DAY_ORDER : ℕ) : ℤ) else 0) = 4 := by
      decide
    simp only [_get_day_date, hidx]
    omega
  · rw [show DAY_ORDER[5]? = some "saturday" from rfl] at h
    injection h with h
    subst h
    have hidx : (if "saturday" ∈ DAY_ORDER then ((posIn "saturday" DAY_ORDER : ℕ) : ℤ) else 0) = 5 := by
      decide
    simp only [_get_day_date, hidx]
    omega
  · rw [show DAY_ORDER[6]? = some "sunday" from rfl] at h
    injection h with h
    subst h
    have hidx : (if "sunday" ∈ DAY_ORDER then ((posIn "sunday" DAY_ORDER : ℕ) : ℤ) else 0) = 6 := by
      decide
    simp only [_get_day_date, hidx]
    omega
  · rw [List.getElem?_eq_none (by simp [DAY_ORDER])] at h
    exact absurd h (by simp)

/-- Witness for C2 at the Monday entry of the canonical ordering. -/
theorem C2_overflow_amended_witness :
    _get_day_date (toOrdinal 2025 5 18) "monday" =
      toOrdinal 2025 5 18 - (6 - ((0 : ℕ) : ℤ)) :=
  C2_overflow_amended.2.1 (toOrdinal 2025 5 18) 0 "monday" (by decide)

/-- Claim C10: a message-carrying dict load beyond the third load of a day
is skipped
entirely: the day produces exactly the writes and final overflow counter it
would produce without that load.  A message load within the first three
rows, by contrast, writes exactly one text cell (column C of its fixed row)
with the uppercased message. -/
theorem C10_overflow_message_skipped :
    (∀ (we : ℤ) (orow : ℕ) (day : DayModel) (l1 l2 : List LoadInput) (d : LoadDict),
       3 ≤ l1.length → d.hasMessage = true →
       processDay we orow { day with loads := l1 ++ LoadInput.dict d :: l2 }
         = processDay we orow { day with loads := l1 ++ l2 })
    ∧ (∀ (row : ℕ) (d : LoadDict), d.hasMessage = true →
        perLoadFixedWrites row (LoadInput.dict d) =
          [⟨"C", row, (d.message.getD "").pyUpper⟩]) := by
  constructor
  · intro we orow day l1 l2 d h3 hm
    have hod : overflowData (LoadInput.dict d) = none := by
      unfold overflowData
      simp [hm]
    have ht : (l1 ++ LoadInput.dict d :: l2).take 3 = (l1 ++ l2).take 3 := by
      rw [List.take_append_of_le_length h3, List.take_append_of_le_length h3]
    have hods : ((l1 ++ LoadInput.dict d :: l2).drop 3).filterMap overflowData
        = ((l1 ++ l2).drop 3).filterMap overflowData := by
      rw [List.drop_append_of_le_length h3, List.drop_append_of_le_length h3,
        List.filterMap_append, List.filterMap_append, List.filterMap_cons, hod]
    unfold processDay
    dsimp only
    cases hmap : DAY_MAPPINGS day.day.pyLower with
    | none => rfl
    | some m =>
      simp only [fixedLoadWrites, ht, hods]
  · intro row d hm
    unfold perLoadFixedWrites
    simp [hm]

/-- Witness for C10: three plain loads followed by a message dict behave
like the three plain loads alone, and a message dict in a fixed row writes
one cell. -/
theorem C10_overflow_message_skipped_witness :
    (3 : ℕ) ≤ ([.lm ⟨"A", "1", "X", "Y", ""⟩, .lm ⟨"B", "1", "X", "Y", ""⟩,
                .lm ⟨"C", "1", "X", "Y", ""⟩] : List LoadInput).length
    ∧ processDay (toOrdinal 2025 5 18) 29
        { day := "Monday", start_time := none, finish_time := none, total_hours := none,
          loads := [.lm ⟨"A", "1", "X", "Y", ""⟩, .lm ⟨"B", "1", "X", "Y", ""⟩,
                    .lm ⟨"C", "1", "X", "Y", ""⟩]
            ++ LoadInput.dict { message := some "WAITING" } :: [] }
      = processDay (toOrdinal 2025 5 18) 29
        { day := "Monday", start_time := none, finish_time := none, total_hours := none,
          loads := [.lm ⟨"A", "1", "X", "Y", ""⟩, .lm ⟨"B", "1", "X", "Y", ""⟩,
                    .lm ⟨"C", "1", "X", "Y", ""⟩] ++ [] }
    ∧ perLoadFixedWrites 8 (LoadInput.dict { message := some "WAITING" })
      = [⟨"C", 8, "WAITING"⟩] :=
  ⟨by decide,
   C10_overflow_message_skipped.1 (toOrdinal 2025 5 18) 29
     { day := "Monday", start_time := none, finish_time := none,
       total_hours := none, loads := [] }
     [.lm ⟨"A", "1", "X", "Y", ""⟩, .lm ⟨"B", "1", "X", "Y", ""⟩,
      .lm ⟨"C", "1", "X", "Y", ""⟩]
     [] { message := some "WAITING" } (by decide) (by decide),
   by
    rw [C10_overflow_message_skipped.2 8 { message := some "WAITING" } (by decide)]
    decide⟩

/-- Witness for C5: the unparsable total "bad" contributes nothing to the
sum over a concrete day list, and the J29 rule applied to a concrete
request selects the computed sum. -/
theorem C5_weekly_total_amended_witness :
    parseFloat (((some "bad" : Option String).getD "")).pyStrip = none
    ∧ _calculate_total_hours
        ({ day := "Wednesday", start_time := none, finish_time := none,
           total_hours := some "bad", loads := [] } ::
         [{ day := "Monday", start_time := none, finish_time := none,
            total_hours := some "9", loads := [] }])
      = _calculate_total_hours
          [{ day := "Monday", start_time := none, finish_time := none,
             total_hours := some "9", loads := [] }]
    ∧ (generate_timesheet_writes none
        { week_ending := toOrdinal 2025 5 18, driver := "Craig",
          fleet_reg := ["Y6BTT"], start_mileage := "1", end_mileage := "2",
          weekly_total_hours := none,
          days := [{ day := "Monday", start_time := none, finish_time := none,
                     total_hours := some "9", loads := [] }] }).getLast? =
      some ⟨"J", 29, "9.0"⟩ :=
  ⟨by decide,
   C5_weekly_total_amended.2.1
     { day := "Wednesday", start_time := none, finish_time := none,
       total_hours := some "bad", loads := [] }
     [{ day := "Monday", start_time := none, finish_time := none,
        total_hours := some "9", loads := [] }]
     (by decide),
   by
    rw [C5_weekly_total_amended.1 none
      { week_ending := toOrdinal 2025 5 18, driver := "Craig",
        fleet_reg := ["Y6BTT"], start_mileage := "1", end_mileage := "2",
        weekly_total_hours := none,
        days := [{ day := "Monday", start_time := none, finish_time := none,
                   total_hours := some "9", loads := [] }] }]
    decide⟩
